import Mathlib

/-!
Verification of `desktop/scripts/build-utils.ts` (flipper build orchestration).

The TypeScript module is embedded shallowly:
* file-system paths are component lists (`Dir`) plus a file name (`FsPath`);
* the effect of a function on the file system is modelled as an explicit
  transformation of a list of existing files, with fallible primitives
  returning `Except`;
* the external bundling engine (`Metro.runBuild`), the per-plugin build
  (`runBuild` from `flipper-pkg-lib`) and the symlink primitive are oracles:
  their outcome on the relevant call is a parameter of the embedding;
* `process.env`-driven configuration is an explicit `BuildEnv` record;
* the tool's own package version (read from `package.json`, outside the
  embedded module) is a `String` parameter named `version`;
* the observable actions of `prepareDefaultPlugins` are recorded as an event
  trace, in the order the source performs them.
-/

namespace BuildUtils

/-- A directory path, as its list of path components. -/
abbrev Dir := List String

/-- A file path: the directory holding the file, together with the file name.
This is what `path.join(folder, name)` produces in the source. -/
structure FsPath where
  dir : Dir
  fname : String
deriving DecidableEq

/-- Model of `path.join(folder, name)` for a file inside a folder. -/
def pathJoin (d : Dir) (f : String) : FsPath := ⟨d, f⟩

/-- Model of `path.join(folder, sub)` for a subdirectory of a folder. -/
def subDir (d : Dir) (s : String) : Dir := d ++ [s]

/-- The fields of `InstalledPluginDetails` (from `flipper-common`) that
`build-utils.ts` reads: identity, source location and the declared versions. -/
structure InstalledPluginDetails where
  id : String
  name : String
  dir : Dir
  entry : String
  version : String
  flipperSDKVersion : String
deriving DecidableEq

/-- The fields of `BundledPluginDetails` produced at lines 109-120 of
`build-utils.ts`: the installed descriptor promoted to bundled form. -/
structure BundledPluginDetails where
  id : String
  name : String
  version : String
  flipperSDKVersion : String
  isBundled : Bool
  dir : Option Dir
  entry : Option String
deriving DecidableEq

/-- Lines 43-62: the fixed allow-list of plugin ids bundled into insiders
builds.  The source stores them in a `Set<string>`; membership is the only
operation used, so a list with `contains` is an equivalent model. -/
def hardcodedPlugins : List String :=
  ["DeviceLogs", "CrashReporter", "MobileBuilds", "Hermesdebuggerrn", "React",
   "Inspector", "Network", "AnalyticsLogging", "GraphQL", "UIPerf",
   "MobileConfig", "Databases", "FunnelLogger", "Navigation", "Fresco",
   "Preferences"]

/-- Lines 90-92: the plugin selection inside `prepareDefaultPlugins`:
`sourcePlugins.filter((p) => !isInsidersBuild || hardcodedPlugins.has(p.id))`. -/
def selectDefaultPlugins (isInsidersBuild : Bool)
    (sourcePlugins : List InstalledPluginDetails) : List InstalledPluginDetails :=
  sourcePlugins.filter (fun p => !isInsidersBuild || hardcodedPlugins.contains p.id)

/-- Lines 109-120: promotion of one `InstalledPluginDetails` to
`BundledPluginDetails` inside `generateDefaultPluginEntryPoints`.  `version`
is the tool's own package version (line 37). -/
def toBundledPluginDetails (version : String)
    (p : InstalledPluginDetails) : BundledPluginDetails :=
  { id := p.id
    name := p.name
    isBundled := true
    version := if p.version = "0.0.0" then version else p.version
    flipperSDKVersion :=
      if p.flipperSDKVersion = "0.0.0" then version else p.flipperSDKVersion
    dir := none
    entry := none }

/-- The artifacts written by `generateDefaultPluginEntryPoints` (lines
103-160): the manifest serialized to `bundled.json`, and the per-plugin
load statements of the generated loader module, identified by the plugin
name each statement is keyed on, in the order they are emitted.  The same
generated module is written to the app tree and the browser-ui tree. -/
structure GeneratedEntryPoints where
  manifest : List BundledPluginDetails
  appLoaderStatements : List String
  browserUiLoaderStatements : List String
deriving DecidableEq

/-- Lines 103-160: `generateDefaultPluginEntryPoints`.  The manifest is the
input list promoted element-wise; the loader statements (`pluginRequres` in
the source) are keyed by plugin name, one per bundled plugin, in order. -/
def generateDefaultPluginEntryPoints (version : String)
    (defaultPlugins : List InstalledPluginDetails) : GeneratedEntryPoints :=
  let bundledPlugins := defaultPlugins.map (toBundledPluginDetails version)
  let pluginRequres := bundledPlugins.map (fun x => x.name)
  { manifest := bundledPlugins
    appLoaderStatements := pluginRequres
    browserUiLoaderStatements := pluginRequres }

/-- The environment-driven configuration read by `prepareDefaultPlugins` and
`buildDefaultPlugins` (`process.env.FLIPPER_*`). -/
structure BuildEnv where
  forcedDefaultPluginsDir : Option Dir
  noDefaultPlugins : Bool
  noBundledPlugins : Bool
  noRebuildPlugins : Bool
deriving DecidableEq

/-- The observable actions of `prepareDefaultPlugins`, in program order. -/
inductive PrepareEvent where
  | emptyDir (d : Dir)
  | copyDir (src dst : Dir)
  | enumerateSourcePlugins
  | buildPlugins (ps : List InstalledPluginDetails)
  | genEntryPoints (ps : List InstalledPluginDetails)
deriving DecidableEq

/-- Lines 69-101: `prepareDefaultPlugins`, as the trace of its actions.
It always empties `defaultPluginsDir` first; with a forced dir it copies it
and generates empty entry points; otherwise it enumerates source plugins
(unless `FLIPPER_NO_DEFAULT_PLUGINS` is set), selects the defaults, and
either builds them and generates empty entry points
(`FLIPPER_NO_BUNDLED_PLUGINS`) or generates entry points from the selection. -/
def prepareDefaultPlugins (env : BuildEnv) (defaultPluginsDir : Dir)
    (sourcePlugins : List InstalledPluginDetails) (isInsidersBuild : Bool) :
    List PrepareEvent :=
  PrepareEvent.emptyDir defaultPluginsDir ::
    match env.forcedDefaultPluginsDir with
    | some forcedDir =>
        [PrepareEvent.copyDir forcedDir defaultPluginsDir,
         PrepareEvent.genEntryPoints []]
    | none =>
        let enumerated :=
          if env.noDefaultPlugins then [] else [PrepareEvent.enumerateSourcePlugins]
        let plugins := if env.noDefaultPlugins then [] else sourcePlugins
        let defaultPlugins := selectDefaultPlugins isInsidersBuild plugins
        enumerated ++
          if env.noBundledPlugins then
            [PrepareEvent.buildPlugins defaultPlugins,
             PrepareEvent.genEntryPoints []]
          else
            [PrepareEvent.genEntryPoints defaultPlugins]

/-- The outcome the loop body of `buildDefaultPlugins` (lines 172-188)
reaches for one plugin: the caught error, if any.  `runBuildError p` is the
error thrown by `runBuild(plugin.dir, dev)` for `p` (or `none`), and
`ensureSymlinkError p` the error thrown by `fs.ensureSymlink` for `p`. -/
def pluginBuildOutcome (noRebuildPlugins : Bool)
    (runBuildError ensureSymlinkError : InstalledPluginDetails → Option String)
    (p : InstalledPluginDetails) : Option String :=
  match (if noRebuildPlugins then none else runBuildError p) with
  | some e => some e
  | none => ensureSymlinkError p

/-- Lines 162-189: `buildDefaultPlugins`.  For each plugin in order it runs
the plugin build (unless `FLIPPER_NO_REBUILD_PLUGINS`), then creates the
symlink in `defaultPluginsDir`; a thrown error is caught and logged for that
plugin.  The result is the per-plugin caught-error log, in order, together
with the list of symlinks created. -/
def buildDefaultPlugins (noRebuildPlugins : Bool)
    (runBuildError ensureSymlinkError : InstalledPluginDetails → Option String)
    (defaultPluginsDir : Dir) :
    List InstalledPluginDetails →
      List (InstalledPluginDetails × Option String) × List FsPath
  | [] => ([], [])
  | p :: rest =>
    let prev := buildDefaultPlugins noRebuildPlugins runBuildError
      ensureSymlinkError defaultPluginsDir rest
    match (if noRebuildPlugins then none else runBuildError p) with
    | some e => ((p, some e) :: prev.1, prev.2)
    | none =>
      match ensureSymlinkError p with
      | some e => ((p, some e) :: prev.1, prev.2)
      | none =>
        ((p, none) :: prev.1, pathJoin defaultPluginsDir p.name :: prev.2)

/-- Options passed to the bundling engine `Metro.runBuild` (second argument),
plus the `platform` field some call sites provide. -/
structure MetroRunOptions where
  platform : Option String
  dev : Bool
  minify : Bool
  resetCache : Bool
  sourceMap : Bool
  sourceMapUrl : Option String
  inlineSourceMap : Bool
  entry : FsPath
  out : FsPath
deriving DecidableEq

/-- How one of the compile entry points terminates: normally, by
`process.exit`, or by letting an error propagate to the caller. -/
inductive BuildOutcome (ε : Type) where
  | ok : BuildOutcome ε
  | exited (code : Nat) : BuildOutcome ε
  | raised (err : ε) : BuildOutcome ε
deriving DecidableEq

/-- Lines 64-67: `die` logs the error and calls `process.exit(1)`. -/
def die {ε : Type} (_err : ε) : BuildOutcome ε := BuildOutcome.exited 1

/-- The effect of one compile entry point: the options it handed to the
bundling engine, how it terminated, and whether `stripSourceMapComment`
was applied to the output bundle. -/
structure CompileResult (ε : Type) where
  options : MetroRunOptions
  outcome : BuildOutcome ε
  strippedSourceMapComment : Bool
deriving DecidableEq

/-- Lines 203-243: `compile`.  `engineResult` is the outcome of the
`Metro.runBuild` call (the engine is an external collaborator); the
`projectRoot` and `watchFolders` arguments go into the engine config and
are carried for faithfulness. -/
def compile {ε : Type} (dev : Bool) (engineResult : Except ε Unit)
    (buildFolder _projectRoot : Dir) (_watchFolders : List Dir)
    (entry : FsPath) : CompileResult ε :=
  let out := pathJoin buildFolder "bundle.js"
  let options : MetroRunOptions :=
    { platform := none
      dev := dev
      minify := !dev
      resetCache := !dev
      sourceMap := true
      sourceMapUrl := if dev then some "bundle.map" else none
      inlineSourceMap := false
      entry := entry
      out := out }
  match engineResult with
  | Except.error e =>
      { options := options, outcome := BuildOutcome.raised e
        strippedSourceMapComment := false }
  | Except.ok _ =>
      { options := options, outcome := BuildOutcome.ok
        strippedSourceMapComment := !dev }

/-- Lines 245-262: `compileRenderer` calls `compile` on the renderer entry
and catches any thrown error with `die`. -/
def compileRenderer {ε : Type} (dev : Bool) (engineResult : Except ε Unit)
    (buildFolder appDir : Dir) (watchFolders : List Dir) : CompileResult ε :=
  let r := compile dev engineResult buildFolder appDir watchFolders
    (pathJoin (subDir appDir "src") "init.tsx")
  match r.outcome with
  | BuildOutcome.raised e => { r with outcome := die e }
  | _ => r

/-- Lines 291-332: `compileMain`.  The whole body is wrapped in try/catch
ending in `die`; on success, `stripSourceMapComment` runs iff not `dev`. -/
def compileMain {ε : Type} (dev : Bool) (engineResult : Except ε Unit)
    (staticDir : Dir) : CompileResult ε :=
  let out := pathJoin staticDir "main.bundle.js"
  let options : MetroRunOptions :=
    { platform := some "web"
      dev := dev
      minify := !dev
      resetCache := !dev
      sourceMap := true
      sourceMapUrl := if dev then some "main.bundle.map" else none
      inlineSourceMap := false
      entry := pathJoin staticDir "main.ts"
      out := out }
  match engineResult with
  | Except.error e =>
      { options := options, outcome := die e
        strippedSourceMapComment := false }
  | Except.ok _ =>
      { options := options, outcome := BuildOutcome.ok
        strippedSourceMapComment := !dev }

/-- Lines 373-407: `compileServerMain`.  No try/catch: an engine error
propagates to the caller unchanged; on success, `stripSourceMapComment`
runs iff not `dev`. -/
def compileServerMain {ε : Type} (dev : Bool) (engineResult : Except ε Unit)
    (serverDir : Dir) : CompileResult ε :=
  let out := pathJoin (subDir serverDir "dist") "index.js"
  let options : MetroRunOptions :=
    { platform := some "node"
      dev := dev
      minify := !dev
      resetCache := !dev
      sourceMap := true
      sourceMapUrl := if dev then some "index.map" else none
      inlineSourceMap := false
      entry := pathJoin (subDir serverDir "src") "index.tsx"
      out := out }
  match engineResult with
  | Except.error e =>
      { options := options, outcome := BuildOutcome.raised e
        strippedSourceMapComment := false }
  | Except.ok _ =>
      { options := options, outcome := BuildOutcome.ok
        strippedSourceMapComment := !dev }

/-- The set of existing files, as a list of paths. -/
abbrev FileSys := List FsPath

/-- Remove every occurrence of a path from the file set. -/
def fsErase (p : FsPath) (fs : FileSys) : FileSys :=
  fs.filter (fun q => q ≠ p)

/-- Add a path to the file set (replacing any existing entry). -/
def fsInsert (p : FsPath) (fs : FileSys) : FileSys :=
  p :: fsErase p fs

/-- Model of `fs-extra` `move` with `overwrite: true`: fails if the source
and destination coincide or the source does not exist; otherwise the file
disappears from the source path and appears at the destination. -/
def fsMove (src dst : FsPath) (fs : FileSys) : Except String FileSys :=
  if src = dst then Except.error "Source and destination must not be the same."
  else if src ∈ fs then Except.ok (fsInsert dst (fsErase src fs))
  else Except.error "ENOENT"

/-- Model of `fs-extra` `remove`: deletes the path, never fails. -/
def fsRemove (p : FsPath) (fs : FileSys) : FileSys := fsErase p fs

/-- Lines 264-289: `moveSourceMaps`.  With a destination folder it moves
`bundle.map` from the build folder and `main.bundle.map` from the static
folder into it (after `ensureDir`, which does not affect the file set);
without one it removes both maps. -/
def moveSourceMaps (buildFolder staticDir : Dir)
    (sourceMapFolder : Option Dir) (fs : FileSys) : Except String FileSys :=
  let mainBundleMap := pathJoin buildFolder "bundle.map"
  let rendererBundleMap := pathJoin staticDir "main.bundle.map"
  match sourceMapFolder with
  | some d =>
      match fsMove mainBundleMap (pathJoin d "bundle.map") fs with
      | Except.error e => Except.error e
      | Except.ok fs1 =>
          fsMove rendererBundleMap (pathJoin d "main.bundle.map") fs1
  | none =>
      Except.ok (fsRemove rendererBundleMap (fsRemove mainBundleMap fs))

/-- Sample plugin with the sentinel version, allow-listed id. -/
def samplePluginA : InstalledPluginDetails :=
  { id := "DeviceLogs"
    name := "flipper-plugin-device-logs"
    dir := ["plugins", "logs"]
    entry := "src/index.tsx"
    version := "0.0.0"
    flipperSDKVersion := "0.0.0" }

/-- Sample plugin with a concrete version, id outside the allow-list. -/
def samplePluginB : InstalledPluginDetails :=
  { id := "MyCustomPlugin"
    name := "flipper-plugin-my-custom"
    dir := ["plugins", "custom"]
    entry := "src/index.tsx"
    version := "1.2.3"
    flipperSDKVersion := "0.202.0" }

/-- Sample environment: forced default-plugins dir supplied. -/
def sampleEnvForced : BuildEnv :=
  { forcedDefaultPluginsDir := some ["prebuilt"]
    noDefaultPlugins := false
    noBundledPlugins := false
    noRebuildPlugins := false }

/-- Sample environment: no override, pre-bundling disabled. -/
def sampleEnvNoBundle : BuildEnv :=
  { forcedDefaultPluginsDir := none
    noDefaultPlugins := false
    noBundledPlugins := true
    noRebuildPlugins := false }

/-- Sample file set holding the two source maps. -/
def sampleFs : FileSys :=
  [pathJoin ["build"] "bundle.map", pathJoin ["static"] "main.bundle.map"]

/-- Claim C1: with `isInsidersBuild = true` (and no override directory in
play), every plugin selected by `prepareDefaultPlugins` has its id in the
fixed `hardcodedPlugins` allow-list, and the selected plugins form a
sublist of the source enumeration, hence keep its relative order. -/
theorem insiders_selection_allowlisted_and_ordered
    (sourcePlugins : List InstalledPluginDetails) :
    (∀ p ∈ selectDefaultPlugins true sourcePlugins,
        hardcodedPlugins.contains p.id = true) ∧
    List.Sublist (selectDefaultPlugins true sourcePlugins) sourcePlugins := by
  constructor
  · intro p hp
    have h := List.mem_filter.mp hp
    simpa using h.2
  · exact List.filter_sublist _

/-- Witness for C1 at a concrete two-plugin enumeration. -/
theorem insiders_selection_witness :
    hardcodedPlugins.contains samplePluginA.id = true ∧
    List.Sublist (selectDefaultPlugins true [samplePluginA, samplePluginB])
      [samplePluginA, samplePluginB] :=
  ⟨(insiders_selection_allowlisted_and_ordered [samplePluginA, samplePluginB]).1
      samplePluginA (by decide),
   (insiders_selection_allowlisted_and_ordered [samplePluginA, samplePluginB]).2⟩

/-- Claim C2: the promoted `BundledPluginDetails` produced by
`generateDefaultPluginEntryPoints` has version equal to the tool's own
package version exactly when the descriptor's version is `"0.0.0"` and the
original version otherwise, the same rule independently for
`flipperSDKVersion`; `isBundled` is true and `dir` and `entry` are cleared;
and the manifest is exactly the element-wise promotion of the input list. -/
theorem bundled_promotion_version_rule (version : String)
    (p : InstalledPluginDetails) :
    (p.version = "0.0.0" → (toBundledPluginDetails version p).version = version) ∧
    (p.version ≠ "0.0.0" →
      (toBundledPluginDetails version p).version = p.version) ∧
    (p.flipperSDKVersion = "0.0.0" →
      (toBundledPluginDetails version p).flipperSDKVersion = version) ∧
    (p.flipperSDKVersion ≠ "0.0.0" →
      (toBundledPluginDetails version p).flipperSDKVersion = p.flipperSDKVersion) ∧
    (toBundledPluginDetails version p).isBundled = true ∧
    (toBundledPluginDetails version p).dir = none ∧
    (toBundledPluginDetails version p).entry = none ∧
    ∀ defaultPlugins : List InstalledPluginDetails,
      (generateDefaultPluginEntryPoints version defaultPlugins).manifest =
        defaultPlugins.map (toBundledPluginDetails version) := by
  refine ⟨?_, ?_, ?_, ?_, rfl, rfl, rfl, fun _ => rfl⟩ <;>
    intro h <;> simp [toBundledPluginDetails, h]

/-- Witness for C2: sentinel version replaced, concrete version kept. -/
theorem bundled_promotion_witness :
    (toBundledPluginDetails "0.202.0" samplePluginA).version = "0.202.0" ∧
    (toBundledPluginDetails "0.202.0" samplePluginB).version = "1.2.3" :=
  ⟨(bundled_promotion_version_rule "0.202.0" samplePluginA).1 (by decide),
   (bundled_promotion_version_rule "0.202.0" samplePluginB).2.1 (by decide)⟩

/-- Claim C7: `generateDefaultPluginEntryPoints` is deterministic in the
input list (two invocations with the same list produce identical manifest
content and loader modules), and the per-plugin load statements of both
generated loader modules are keyed by plugin name following the order of
the input list. -/
theorem generate_entry_points_deterministic_and_ordered (version : String)
    (defaultPlugins : List InstalledPluginDetails) :
    generateDefaultPluginEntryPoints version defaultPlugins =
      generateDefaultPluginEntryPoints version defaultPlugins ∧
    (generateDefaultPluginEntryPoints version defaultPlugins).appLoaderStatements =
      defaultPlugins.map (fun p => p.name) ∧
    (generateDefaultPluginEntryPoints version defaultPlugins).browserUiLoaderStatements =
      defaultPlugins.map (fun p => p.name) := by
  refine ⟨rfl, ?_, ?_⟩ <;>
    simp [generateDefaultPluginEntryPoints, toBundledPluginDetails,
      List.map_map, Function.comp]

/-- Claim C9: on every invocation, whatever the environment and flag, the
first action of `prepareDefaultPlugins` is emptying the default-plugins
directory. -/
theorem prepare_default_plugins_empties_first (env : BuildEnv)
    (defaultPluginsDir : Dir) (sourcePlugins : List InstalledPluginDetails)
    (isInsidersBuild : Bool) :
    (prepareDefaultPlugins env defaultPluginsDir sourcePlugins
        isInsidersBuild).head? =
      some (PrepareEvent.emptyDir defaultPluginsDir) := rfl

/-- Claim C8: with an override default-plugins directory supplied, the trace
of `prepareDefaultPlugins` is exactly: empty the default-plugins directory,
recursively copy the override over it, and invoke the entry-point generator
with the empty list — so plugin enumeration, building and linking are all
skipped — and generating from the empty list yields an empty manifest and
two empty loader modules. -/
theorem prepare_default_plugins_override_branch (env : BuildEnv)
    (version : String) (defaultPluginsDir forcedDir : Dir)
    (sourcePlugins : List InstalledPluginDetails) (isInsidersBuild : Bool)
    (h : env.forcedDefaultPluginsDir = some forcedDir) :
    prepareDefaultPlugins env defaultPluginsDir sourcePlugins isInsidersBuild =
      [PrepareEvent.emptyDir defaultPluginsDir,
       PrepareEvent.copyDir forcedDir defaultPluginsDir,
       PrepareEvent.genEntryPoints []] ∧
    (generateDefaultPluginEntryPoints version []).manifest = [] ∧
    (generateDefaultPluginEntryPoints version []).appLoaderStatements = [] ∧
    (generateDefaultPluginEntryPoints version []).browserUiLoaderStatements = [] := by
  refine ⟨?_, rfl, rfl, rfl⟩
  simp [prepareDefaultPlugins, h]

/-- Witness for C8 at a concrete forced directory. -/
theorem prepare_default_plugins_override_witness :
    prepareDefaultPlugins sampleEnvForced ["static", "defaultPlugins"]
        [samplePluginA, samplePluginB] true =
      [PrepareEvent.emptyDir ["static", "defaultPlugins"],
       PrepareEvent.copyDir ["prebuilt"] ["static", "defaultPlugins"],
       PrepareEvent.genEntryPoints []] ∧
    (generateDefaultPluginEntryPoints "0.202.0" []).manifest = [] ∧
    (generateDefaultPluginEntryPoints "0.202.0" []).appLoaderStatements = [] ∧
    (generateDefaultPluginEntryPoints "0.202.0" []).browserUiLoaderStatements = [] :=
  prepare_default_plugins_override_branch sampleEnvForced "0.202.0"
    ["static", "defaultPlugins"] ["prebuilt"] [samplePluginA, samplePluginB]
    true rfl

/-- Claim C10: with `FLIPPER_NO_BUNDLED_PLUGINS` set and no override
directory, `prepareDefaultPlugins` builds and links the selected plugins
but invokes the entry-point generator with the empty list, so the manifest
is `[]` and both loader modules load no plugins, even when the selection is
non-empty. -/
theorem prepare_default_plugins_no_bundled (env : BuildEnv) (version : String)
    (defaultPluginsDir : Dir) (sourcePlugins : List InstalledPluginDetails)
    (isInsidersBuild : Bool)
    (hforced : env.forcedDefaultPluginsDir = none)
    (hnb : env.noBundledPlugins = true)
    (hnd : env.noDefaultPlugins = false) :
    prepareDefaultPlugins env defaultPluginsDir sourcePlugins isInsidersBuild =
      [PrepareEvent.emptyDir defaultPluginsDir,
       PrepareEvent.enumerateSourcePlugins,
       PrepareEvent.buildPlugins
         (selectDefaultPlugins isInsidersBuild sourcePlugins),
       PrepareEvent.genEntryPoints []] ∧
    (generateDefaultPluginEntryPoints version []).manifest = [] ∧
    (generateDefaultPluginEntryPoints version []).appLoaderStatements = [] ∧
    (generateDefaultPluginEntryPoints version []).browserUiLoaderStatements = [] := by
  refine ⟨?_, rfl, rfl, rfl⟩
  simp [prepareDefaultPlugins, hforced, hnb, hnd]

/-- Witness for C10: a non-empty selection is built, yet the generator is
called with the empty list. -/
theorem prepare_default_plugins_no_bundled_witness :
    prepareDefaultPlugins sampleEnvNoBundle ["static", "defaultPlugins"]
        [samplePluginA, samplePluginB] true =
      [PrepareEvent.emptyDir ["static", "defaultPlugins"],
       PrepareEvent.enumerateSourcePlugins,
       PrepareEvent.buildPlugins
         (selectDefaultPlugins true [samplePluginA, samplePluginB]),
       PrepareEvent.genEntryPoints []] ∧
    (generateDefaultPluginEntryPoints "0.202.0" []).manifest = [] ∧
    (generateDefaultPluginEntryPoints "0.202.0" []).appLoaderStatements = [] ∧
    (generateDefaultPluginEntryPoints "0.202.0" []).browserUiLoaderStatements = [] :=
  prepare_default_plugins_no_bundled sampleEnvNoBundle "0.202.0"
    ["static", "defaultPlugins"] [samplePluginA, samplePluginB] true
    rfl rfl rfl

/-- Claim C6: when the engine call throws, `compileRenderer` and
`compileMain` terminate the process via `die` (exit code 1, the error not
surfaced to the caller), while `compileServerMain` lets the same error
propagate unchanged; when the engine call succeeds, all three terminate
normally. -/
theorem compile_failure_propagation {ε : Type} (e : ε) (dev : Bool)
    (buildFolder appDir staticDir serverDir : Dir) (watchFolders : List Dir) :
    (compileRenderer dev (Except.error e) buildFolder appDir
        watchFolders).outcome = BuildOutcome.exited 1 ∧
    (compileMain dev (Except.error e) staticDir).outcome =
      BuildOutcome.exited 1 ∧
    (compileServerMain dev (Except.error e) serverDir).outcome =
      BuildOutcome.raised e ∧
    (compileRenderer dev (Except.ok () : Except ε Unit) buildFolder appDir
        watchFolders).outcome = BuildOutcome.ok ∧
    (compileMain dev (Except.ok () : Except ε Unit) staticDir).outcome =
      BuildOutcome.ok ∧
    (compileServerMain dev (Except.ok () : Except ε Unit) serverDir).outcome =
      BuildOutcome.ok :=
  ⟨rfl, rfl, rfl, rfl, rfl, rfl⟩

/-- Claim C3: in dev mode each of the three targets hands the engine
`minify = false`, an external named source-map URL and
`inlineSourceMap = false`, and the bundle is not post-processed; in
production mode each hands `minify = true`, `resetCache = true` and no
source-map URL, and after a successful compilation the source-map comment
is stripped from the output bundle. -/
theorem compile_targets_source_map_policy {ε : Type}
    (engineResult : Except ε Unit) (dev : Bool)
    (buildFolder projectRoot staticDir serverDir : Dir)
    (watchFolders : List Dir) (entry : FsPath) :
    (dev = true →
      ((compile dev engineResult buildFolder projectRoot watchFolders
          entry).options.minify = false ∧
       (compile dev engineResult buildFolder projectRoot watchFolders
          entry).options.sourceMapUrl = some "bundle.map" ∧
       (compile dev engineResult buildFolder projectRoot watchFolders
          entry).options.inlineSourceMap = false ∧
       (compile dev engineResult buildFolder projectRoot watchFolders
          entry).strippedSourceMapComment = false) ∧
      ((compileMain dev engineResult staticDir).options.minify = false ∧
       (compileMain dev engineResult staticDir).options.sourceMapUrl =
         some "main.bundle.map" ∧
       (compileMain dev engineResult staticDir).options.inlineSourceMap = false ∧
       (compileMain dev engineResult staticDir).strippedSourceMapComment = false) ∧
      ((compileServerMain dev engineResult serverDir).options.minify = false ∧
       (compileServerMain dev engineResult serverDir).options.sourceMapUrl =
         some "index.map" ∧
       (compileServerMain dev engineResult serverDir).options.inlineSourceMap =
         false ∧
       (compileServerMain dev engineResult serverDir).strippedSourceMapComment =
         false)) ∧
    (dev = false →
      ((compile dev engineResult buildFolder projectRoot watchFolders
          entry).options.minify = true ∧
       (compile dev engineResult buildFolder projectRoot watchFolders
          entry).options.resetCache = true ∧
       (compile dev engineResult buildFolder projectRoot watchFolders
          entry).options.sourceMapUrl = none ∧
       ((compile dev engineResult buildFolder projectRoot watchFolders
           entry).outcome = BuildOutcome.ok →
         (compile dev engineResult buildFolder projectRoot watchFolders
           entry).strippedSourceMapComment = true)) ∧
      ((compileMain dev engineResult staticDir).options.minify = true ∧
       (compileMain dev engineResult staticDir).options.resetCache = true ∧
       (compileMain dev engineResult staticDir).options.sourceMapUrl = none ∧
       ((compileMain dev engineResult staticDir).outcome = BuildOutcome.ok →
         (compileMain dev engineResult staticDir).strippedSourceMapComment =
           true)) ∧
      ((compileServerMain dev engineResult serverDir).options.minify = true ∧
       (compileServerMain dev engineResult serverDir).options.resetCache =
         true ∧
       (compileServerMain dev engineResult serverDir).options.sourceMapUrl =
         none ∧
       ((compileServerMain dev engineResult serverDir).outcome =
           BuildOutcome.ok →
         (compileServerMain dev engineResult
           serverDir).strippedSourceMapComment = true))) := by
  constructor
  · intro hdev
    subst hdev
    cases engineResult <;>
      simp [compile, compileMain, compileServerMain, die]
  · intro hdev
    subst hdev
    cases engineResult <;>
      simp [compile, compileMain, compileServerMain, die]

/-- Witness for C3: concrete dev and production runs of all three targets. -/
theorem compile_targets_source_map_policy_witness :
    (compile true (Except.ok ()) ["build"] ["app"] [] (pathJoin ["app"] "init.tsx")
        (ε := String)).options.minify = false ∧
    (compileMain false (Except.ok ()) ["static"]
        (ε := String)).strippedSourceMapComment = true ∧
    (compileServerMain false (Except.ok ()) ["server"]
        (ε := String)).options.sourceMapUrl = none := by
  refine ⟨?_, ?_, ?_⟩
  · exact ((compile_targets_source_map_policy (Except.ok ()) true ["build"]
      ["app"] ["static"] ["server"] [] (pathJoin ["app"] "init.tsx")).1
      rfl).1.1
  · exact (((compile_targets_source_map_policy (Except.ok ()) false ["build"]
      ["app"] ["static"] ["server"] [] (pathJoin ["app"] "init.tsx")).2
      rfl).2.1).2.2.2 rfl
  · exact (((compile_targets_source_map_policy (Except.ok ()) false ["build"]
      ["app"] ["static"] ["server"] [] (pathJoin ["app"] "init.tsx")).2
      rfl).2.2).2.2.1

/-- Claim C5: `buildDefaultPlugins` attempts every plugin of the list, in
order, with each failure caught per plugin: the caught-error log is exactly
the element-wise `pluginBuildOutcome` (so one plugin's result never depends
on another's failure and no failure propagates to the caller), and every
plugin whose own build and link succeed gets its symlink created, whatever
happens to the others. -/
theorem build_default_plugins_fault_isolation (noRebuildPlugins : Bool)
    (runBuildError ensureSymlinkError : InstalledPluginDetails → Option String)
    (defaultPluginsDir : Dir) (defaultPlugins : List InstalledPluginDetails) :
    (buildDefaultPlugins noRebuildPlugins runBuildError ensureSymlinkError
        defaultPluginsDir defaultPlugins).1 =
      defaultPlugins.map (fun p =>
        (p, pluginBuildOutcome noRebuildPlugins runBuildError
              ensureSymlinkError p)) ∧
    ∀ p ∈ defaultPlugins,
      pluginBuildOutcome noRebuildPlugins runBuildError ensureSymlinkError p =
          none →
        pathJoin defaultPluginsDir p.name ∈
          (buildDefaultPlugins noRebuildPlugins runBuildError
            ensureSymlinkError defaultPluginsDir defaultPlugins).2 := by
  induction defaultPlugins with
  | nil =>
    refine ⟨rfl, ?_⟩
    intro p hp
    cases hp
  | cons p rest ih =>
    obtain ⟨ih1, ih2⟩ := ih
    constructor
    · cases hb : (if noRebuildPlugins then none else runBuildError p) with
      | some e =>
        simp [buildDefaultPlugins, pluginBuildOutcome, hb, ih1]
      | none =>
        cases hl : ensureSymlinkError p with
        | some e =>
          simp [buildDefaultPlugins, pluginBuildOutcome, hb, hl, ih1]
        | none =>
          simp [buildDefaultPlugins, pluginBuildOutcome, hb, hl, ih1]
    · intro q hq hout
      rcases List.mem_cons.mp hq with rfl | hq
      · cases hb : (if noRebuildPlugins then none else runBuildError q) with
        | some e => simp [pluginBuildOutcome, hb] at hout
        | none =>
          cases hl : ensureSymlinkError q with
          | some e => simp [pluginBuildOutcome, hb, hl] at hout
          | none => simp [buildDefaultPlugins, hb, hl]
      · cases hb : (if noRebuildPlugins then none else runBuildError p) with
        | some e =>
          simpa [buildDefaultPlugins, hb] using ih2 q hq hout
        | none =>
          cases hl : ensureSymlinkError p with
          | some e =>
            simpa [buildDefaultPlugins, hb, hl] using ih2 q hq hout
          | none =>
            simp [buildDefaultPlugins, hb, hl]
            exact Or.inr (ih2 q hq hout)

/-- Witness for C5: the first plugin's build fails, the second is still
attempted and linked. -/
theorem build_default_plugins_witness :
    (buildDefaultPlugins false
        (fun p => if p.id = samplePluginA.id then some "build failed" else none)
        (fun _ => none) ["static", "defaultPlugins"]
        [samplePluginA, samplePluginB]).1 =
      [(samplePluginA, some "build failed"), (samplePluginB, none)] ∧
    pathJoin ["static", "defaultPlugins"] samplePluginB.name ∈
      (buildDefaultPlugins false
        (fun p => if p.id = samplePluginA.id then some "build failed" else none)
        (fun _ => none) ["static", "defaultPlugins"]
        [samplePluginA, samplePluginB]).2 := by
  refine ⟨?_, ?_⟩
  · have h := (build_default_plugins_fault_isolation false
      (fun p => if p.id = samplePluginA.id then some "build failed" else none)
      (fun _ => none) ["static", "defaultPlugins"]
      [samplePluginA, samplePluginB]).1
    rw [h]
    decide
  · exact (build_default_plugins_fault_isolation false
      (fun p => if p.id = samplePluginA.id then some "build failed" else none)
      (fun _ => none) ["static", "defaultPlugins"]
      [samplePluginA, samplePluginB]).2 samplePluginB (by decide) (by decide)

/-- Membership in the file set after erasing a path. -/
theorem mem_fsErase {q p : FsPath} {fs : FileSys} :
    q ∈ fsErase p fs ↔ q ∈ fs ∧ q ≠ p := by
  simp [fsErase]

/-- Membership in the file set after adding a path. -/
theorem mem_fsInsert {q p : FsPath} {fs : FileSys} :
    q ∈ fsInsert p fs ↔ q = p ∨ (q ∈ fs ∧ q ≠ p) := by
  simp [fsInsert, mem_fsErase]

/-- A successful `fsMove` means the paths were distinct and the resulting
file set is the erase-then-insert transform. -/
theorem fsMove_ok {src dst : FsPath} {fs fs' : FileSys}
    (h : fsMove src dst fs = Except.ok fs') :
    src ≠ dst ∧ fs' = fsInsert dst (fsErase src fs) := by
  unfold fsMove at h
  split_ifs at h with h1 h2
  injection h with h3
  exact ⟨h1, h3.symm⟩

/-- Claim C4: whenever `moveSourceMaps` completes with a destination
directory, neither original source-map path exists any more and both map
files exist under the destination; whenever it completes with no
destination, neither original map path exists. -/
theorem move_source_maps_spec (buildFolder staticDir d : Dir)
    (fs : FileSys) :
    (∀ fs', moveSourceMaps buildFolder staticDir (some d) fs = Except.ok fs' →
      pathJoin buildFolder "bundle.map" ∉ fs' ∧
      pathJoin staticDir "main.bundle.map" ∉ fs' ∧
      pathJoin d "bundle.map" ∈ fs' ∧
      pathJoin d "main.bundle.map" ∈ fs') ∧
    (∀ fs', moveSourceMaps buildFolder staticDir none fs = Except.ok fs' →
      pathJoin buildFolder "bundle.map" ∉ fs' ∧
      pathJoin staticDir "main.bundle.map" ∉ fs') := by
  constructor
  · intro fs' h
    unfold moveSourceMaps at h
    cases h1 : fsMove (pathJoin buildFolder "bundle.map")
        (pathJoin d "bundle.map") fs with
    | error e =>
      simp only [h1] at h
      exact Except.noConfusion h
    | ok fs1 =>
      simp only [h1] at h
      obtain ⟨hne1, rfl⟩ := fsMove_ok h1
      obtain ⟨hne2, rfl⟩ := fsMove_ok h
      refine ⟨?_, ?_, ?_, ?_⟩ <;>
        simp [mem_fsInsert, mem_fsErase, pathJoin, hne1, hne2] <;>
        simp [pathJoin] at hne1 hne2 ⊢ <;> tauto
  · intro fs' h
    simp only [moveSourceMaps, Except.ok.injEq] at h
    subst h
    constructor <;> simp [fsRemove, mem_fsErase, pathJoin]

/-- Witness for C4: a concrete move of both maps, and a concrete removal. -/
theorem move_source_maps_witness :
    (pathJoin ["build"] "bundle.map" ∉
        ([pathJoin ["maps"] "main.bundle.map",
          pathJoin ["maps"] "bundle.map"] : FileSys) ∧
     pathJoin ["static"] "main.bundle.map" ∉
        ([pathJoin ["maps"] "main.bundle.map",
          pathJoin ["maps"] "bundle.map"] : FileSys) ∧
     pathJoin ["maps"] "bundle.map" ∈
        ([pathJoin ["maps"] "main.bundle.map",
          pathJoin ["maps"] "bundle.map"] : FileSys) ∧
     pathJoin ["maps"] "main.bundle.map" ∈
        ([pathJoin ["maps"] "main.bundle.map",
          pathJoin ["maps"] "bundle.map"] : FileSys)) ∧
    (pathJoin ["build"] "bundle.map" ∉ ([] : FileSys) ∧
     pathJoin ["static"] "main.bundle.map" ∉ ([] : FileSys)) :=
  ⟨(move_source_maps_spec ["build"] ["static"] ["maps"] sampleFs).1 _ rfl,
   (move_source_maps_spec ["build"] ["static"] ["maps"] sampleFs).2 _ rfl⟩

end BuildUtils
